import Mathlib

/-!
Shallow embedding of the syscall dispatcher of `src/main/host/syscall/handler/mod.rs`
(the shadow network simulator), together with theorems about its behaviour.

External types that the dispatcher uses but whose sources are not part of this
repository slice (`SysCallArgs`, `SysCallReg`, `SyscallNum`, the descriptor table,
the thread context) are modelled from the specification's data model.
-/

namespace Shadow

/-- A raw machine-word register value (`SysCallReg`).  Modelled from the spec:
a machine-word is a raw register value convertible to the handler's domain types. -/
structure SysCallReg where
  val : Nat
deriving DecidableEq

/-- Modelled from the spec: immutable per-invocation record
`{number: u32, args: [machine-word; 6]}` (`SysCallArgs`). -/
structure SysCallArgs where
  number : Nat
  args : Fin 6 → SysCallReg

/-- `SysCallArgs::get(i)`: the i-th machine-word argument. -/
def SysCallArgs.get (a : SysCallArgs) (i : Fin 6) : SysCallReg := a.args i

/-- The error side of `SyscallResult` (`SyscallError` in `syscall_types`):
`Failed(errno, restartable)`, `Native`, or `Blocked(condition)`.  The wait
condition is abstracted to a token. -/
inductive SyscallError where
  | failed (errno : Nat) (restartable : Bool)
  | native
  | blocked (cond : Nat)
deriving DecidableEq

/-- `SyscallResult = Result<SysCallReg, SyscallError>`. -/
abbrev SyscallResult := Except SyscallError SysCallReg

/-- Linux errno value for `ENOSYS`. -/
def ENOSYS : Nat := 38

/-- Linux errno value for `EBADF`. -/
def EBADF : Nat := 9

/-- `Errno::into::<SyscallError>()` produces `Failed { errno, restartable: false }`. -/
def errnoIntoError (e : Nat) : SyscallError := SyscallError.failed e false

/-!
The syscall-number tables.  The symbolic constants `SyscallNum::NR_*` live in the
external `linux_api` crate; their numeric values are the x86-64 Linux ABI values.
The lists below transcribe, in source order, the arms of the `match` statement in
`SyscallHandler::syscall`.
-/

/-- The SHADOW-HANDLED (emulated) syscalls: one entry per `handle!` arm of the
dispatcher's match, in source order, paired with the syscall's name. -/
def emulatedSyscalls : List (Nat × String) :=
  [(43, "accept"), (288, "accept4"), (49, "bind"), (12, "brk"),
   (229, "clock_getres"), (230, "clock_nanosleep"), (56, "clone"), (435, "clone3"),
   (3, "close"), (42, "connect"), (85, "creat"), (32, "dup"), (33, "dup2"),
   (292, "dup3"), (213, "epoll_create"), (291, "epoll_create1"), (233, "epoll_ctl"),
   (281, "epoll_pwait"), (441, "epoll_pwait2"), (232, "epoll_wait"),
   (284, "eventfd"), (290, "eventfd2"), (59, "execve"), (322, "execveat"),
   (231, "exit_group"), (269, "faccessat"), (221, "fadvise64"), (285, "fallocate"),
   (91, "fchmod"), (268, "fchmodat"), (93, "fchown"), (260, "fchownat"),
   (72, "fcntl"), (75, "fdatasync"), (193, "fgetxattr"), (196, "flistxattr"),
   (73, "flock"), (57, "fork"), (199, "fremovexattr"), (190, "fsetxattr"),
   (5, "fstat"), (138, "fstatfs"), (74, "fsync"), (77, "ftruncate"),
   (202, "futex"), (261, "futimesat"), (274, "get_robust_list"), (78, "getdents"),
   (217, "getdents64"), (36, "getitimer"), (52, "getpeername"), (121, "getpgid"),
   (111, "getpgrp"), (39, "getpid"), (110, "getppid"), (318, "getrandom"),
   (124, "getsid"), (51, "getsockname"), (55, "getsockopt"), (186, "gettid"),
   (16, "ioctl"), (62, "kill"), (265, "linkat"), (50, "listen"), (8, "lseek"),
   (258, "mkdirat"), (259, "mknodat"), (9, "mmap"), (10, "mprotect"),
   (25, "mremap"), (11, "munmap"), (35, "nanosleep"), (262, "newfstatat"),
   (2, "open"), (257, "openat"), (22, "pipe"), (293, "pipe2"), (7, "poll"),
   (271, "ppoll"), (157, "prctl"), (17, "pread64"), (295, "preadv"),
   (327, "preadv2"), (302, "prlimit64"), (270, "pselect6"), (18, "pwrite64"),
   (296, "pwritev"), (328, "pwritev2"), (0, "read"), (187, "readahead"),
   (267, "readlinkat"), (19, "readv"), (45, "recvfrom"), (47, "recvmsg"),
   (264, "renameat"), (316, "renameat2"), (334, "rseq"), (13, "rt_sigaction"),
   (14, "rt_sigprocmask"), (204, "sched_getaffinity"), (203, "sched_setaffinity"),
   (23, "select"), (46, "sendmsg"), (44, "sendto"), (273, "set_robust_list"),
   (218, "set_tid_address"), (38, "setitimer"), (109, "setpgid"), (112, "setsid"),
   (54, "setsockopt"), (48, "shutdown"), (131, "sigaltstack"), (41, "socket"),
   (53, "socketpair"), (332, "statx"), (266, "symlinkat"),
   (277, "sync_file_range"), (306, "syncfs"), (99, "sysinfo"), (234, "tgkill"),
   (283, "timerfd_create"), (287, "timerfd_gettime"), (286, "timerfd_settime"),
   (200, "tkill"), (63, "uname"), (263, "unlinkat"), (280, "utimensat"),
   (58, "vfork"), (247, "waitid"), (61, "wait4"), (1, "write"), (20, "writev")]

/-- Modelled from the spec: the CUSTOM SHADOW-SPECIFIC syscall numbers
(`c::ShadowSyscallNum_SYS_shadow_*`) come from a header outside this slice; the
spec reserves for them a small range outside the Linux allocation, so they are
modelled as 1000-1002, in the dispatcher's source order. -/
def shadowCustomSyscalls : List (Nat × String) :=
  [(1000, "shadow_hostname_to_addr_ipv4"),
   (1001, "shadow_init_memory_manager"),
   (1002, "shadow_yield")]

/-- The SHIM-ONLY syscalls of the dispatcher's panicking arm, in source order. -/
def shimOnlySyscalls : List (Nat × String) :=
  [(228, "clock_gettime"), (96, "gettimeofday"), (24, "sched_yield"), (201, "time")]

/-- The NATIVE LINUX-HANDLED allow-list arm of the dispatcher, in source order. -/
def nativeSyscalls : List (Nat × String) :=
  [(21, "access"), (158, "arch_prctl"), (90, "chmod"), (92, "chown"),
   (60, "exit"), (79, "getcwd"), (107, "geteuid"), (108, "getegid"),
   (104, "getgid"), (115, "getgroups"), (120, "getresgid"), (118, "getresuid"),
   (97, "getrlimit"), (102, "getuid"), (191, "getxattr"), (94, "lchown"),
   (192, "lgetxattr"), (86, "link"), (194, "listxattr"), (195, "llistxattr"),
   (198, "lremovexattr"), (189, "lsetxattr"), (6, "lstat"), (28, "madvise"),
   (83, "mkdir"), (133, "mknod"), (89, "readlink"), (197, "removexattr"),
   (82, "rename"), (84, "rmdir"), (15, "rt_sigreturn"), (123, "setfsgid"),
   (122, "setfsuid"), (106, "setgid"), (114, "setregid"), (119, "setresgid"),
   (117, "setresuid"), (113, "setreuid"), (160, "setrlimit"), (105, "setuid"),
   (188, "setxattr"), (4, "stat"), (137, "statfs"), (88, "symlink"),
   (76, "truncate"), (87, "unlink"), (132, "utime"), (235, "utimes")]

/-- The numbers of the emulated set. -/
def emulatedNums : List Nat := emulatedSyscalls.map Prod.fst

/-- The numbers of the simulator-private (custom) set. -/
def shadowCustomNums : List Nat := shadowCustomSyscalls.map Prod.fst

/-- The numbers of the shim-only set. -/
def shimOnlyNums : List Nat := shimOnlySyscalls.map Prod.fst

/-- The numbers of the native allow-list. -/
def nativeNums : List Nat := nativeSyscalls.map Prod.fst

/-- `SyscallNum::to_str()`: the symbolic name of a syscall number, when known.
Modelled from the spec for numbers outside the dispatcher's arms (the full name
table lives in the external `linux_api` crate). -/
def syscallNameOf (n : Nat) : Option String :=
  (emulatedSyscalls ++ shadowCustomSyscalls ++ shimOnlySyscalls ++ nativeSyscalls).lookup n

/-!
The thread context and the dispatcher's bookkeeping state.
-/

/-- A per-thread syscall counter (`c::_syscallhandler_getCounter`):
`add_one(name)` bumps the count stored under a syscall name. -/
def counterAddOne (c : String → Nat) (name : String) : String → Nat :=
  fun m => if m = name then c m + 1 else c m

/-- Modelled from the spec: the thread context supplied by the caller, holding
references to host, process, and thread.  `objs` abstracts the simulation state
(host/process/thread objects) that per-family handlers may mutate; `wasBlocked`
is `c::_syscallhandler_wasBlocked`, and `counter` is the (possibly null)
per-thread syscall counter. -/
structure ThreadContext (α : Type) where
  objs : α
  wasBlocked : Bool
  counter : Option (String → Nat)
  processName : String
  pluginName : String
  hostName : String
  tid : Nat

/-- The per-family handler environment.  The bodies of the `handle!` targets
live in submodules outside this slice, so the emulated and custom arms are
abstracted as a function from the syscall number, the mutable simulation state
and the arguments to a `SyscallResult` and the updated state. -/
abbrev HandlerEnv (α : Type) := Nat → α → SysCallArgs → SyscallResult × α

/-- The logging configuration the dispatcher consults: whether Trace-level
logging is enabled (`log::log_enabled!(log::Level::Trace)`) and whether strace
logging is configured for the process (`process.strace_logging_options()` is
`Some`). -/
structure LogConfig where
  traceEnabled : Bool
  straceEnabled : Bool

/-- Log levels used by the dispatcher. -/
inductive LogLevel where
  | trace
  | debug
  | warn
deriving DecidableEq

instance : DecidableEq SyscallResult := fun
  | Except.ok a, Except.ok b =>
      if h : a = b then isTrue (by rw [h])
      else isFalse (by intro he; cases he; exact h rfl)
  | Except.ok _, Except.error _ => isFalse (by intro h; cases h)
  | Except.error _, Except.ok _ => isFalse (by intro h; cases h)
  | Except.error a, Except.error b =>
      if h : a = b then isTrue (by rw [h])
      else isFalse (by intro he; cases he; exact h rfl)

/-- The observable logging side effects of one dispatch. -/
inductive LogEvent where
  | preTrace (name : String) (num : Nat) (wasBlocked : Bool)
  | nativeTrace (name : String) (num : Nat)
  | unsupportedLog (level : LogLevel) (name : String) (num : Nat)
  | straceLog (name : String) (rv : SyscallResult)
  | postTrace (name : String) (num : Nat) (wasBlocked : Bool) (rendered : String)
deriving DecidableEq

/-- `i64::from(reg)`: the register value read as a signed 64-bit integer. -/
def regToI64 (r : SysCallReg) : Int :=
  if r.val < 2 ^ 63 then (r.val : Int) else (r.val : Int) - 2 ^ 64

/-- The post-trace rendering of a result: decimal return value, negated errno
(the errno symbol table lives in the external `linux_api` crate, so the errno is
rendered numerically), `<native>`, or `<blocked>`. -/
def formatResult (rv : SyscallResult) : String :=
  match rv with
  | Except.ok reg => toString (regToI64 reg)
  | Except.error (SyscallError.failed errno _) =>
      toString (-(errno : Int)) ++ " (errno " ++ toString errno ++ ")"
  | Except.error SyscallError.native => "<native>"
  | Except.error (SyscallError.blocked _) => "<blocked>"

/-- `WARNED_SET.read().unwrap().as_ref().map(|x| x.contains(&syscall)).unwrap_or(false)`:
whether a syscall number is in the (lazily created) warned set. -/
def warnedContains (w : Option (List Nat)) (n : Nat) : Bool :=
  (w.map (fun x => x.contains n)).getD false

/-- `WARNED_SET.write().unwrap().get_or_insert_with(HashSet::new).insert(syscall)`:
insert a number into the (lazily created) warned set. -/
def warnedInsert (w : Option (List Nat)) (n : Nat) : Option (List Nat) :=
  some (n :: w.getD [])

/-- The outcome of one dispatch: either a returned `SyscallResult`, or a fatal
invariant-violation diagnostic that terminates the simulation (Rust panic). -/
inductive DispatchOutcome where
  | ret (rv : SyscallResult)
  | fatal (msg : String)
deriving DecidableEq

/-- Everything one call of the dispatcher produces: the outcome, the updated
process-wide warned set, the updated thread context, and the emitted log. -/
structure DispatchResult (α : Type) where
  outcome : DispatchOutcome
  warnedSet : Option (List Nat)
  ctx : ThreadContext α
  log : List LogEvent

/-- `SyscallHandler::syscall`: the dispatcher.  Converts the number to its
symbolic identity, reads the was-blocked flag, emits the pre-trace, bumps the
per-name counter on first entry only, routes by category (emulated / custom /
shim-only / native / unsupported), and emits the post-trace on return. -/
def SyscallHandler.syscall {α : Type} (handlers : HandlerEnv α) (cfg : LogConfig)
    (warnedSet : Option (List Nat)) (ctx : ThreadContext α) (args : SysCallArgs) :
    DispatchResult α :=
  let num := args.number
  let syscallName := (syscallNameOf num).getD "unknown-syscall"
  let wasBlocked := ctx.wasBlocked
  let preLog := if cfg.traceEnabled then [LogEvent.preTrace syscallName num wasBlocked] else []
  let ctx1 :=
    if wasBlocked then ctx
    else { ctx with counter := ctx.counter.map (fun c => counterAddOne c syscallName) }
  let arm : DispatchOutcome × Option (List Nat) × ThreadContext α × List LogEvent :=
    if num ∈ emulatedNums ∨ num ∈ shadowCustomNums then
      -- SHADOW-HANDLED and CUSTOM SHADOW-SPECIFIC SYSCALLS: `handle!(f)`
      let hres := handlers num ctx1.objs args
      (DispatchOutcome.ret hres.1, warnedSet, { ctx1 with objs := hres.2 }, [])
    else if num ∈ shimOnlyNums then
      -- SHIM-ONLY SYSCALLS: invariant violation
      (DispatchOutcome.fatal
          ("Syscall " ++ syscallName ++ " (" ++ toString num
            ++ ") should have been handled in the shim"),
        warnedSet, ctx1, [])
    else if num ∈ nativeNums then
      -- NATIVE LINUX-HANDLED SYSCALLS
      let rv : SyscallResult := Except.error SyscallError.native
      let logs :=
        (if cfg.traceEnabled then [LogEvent.nativeTrace syscallName num] else [])
          ++ (if cfg.straceEnabled then [LogEvent.straceLog syscallName rv] else [])
      (DispatchOutcome.ret rv, warnedSet, ctx1, logs)
    else
      -- UNSUPPORTED SYSCALL
      let hasAlreadyWarned := warnedContains warnedSet num
      if ¬hasAlreadyWarned ∧ warnedContains warnedSet num then
        -- the insert returned false although the read said not-yet-warned
        (DispatchOutcome.fatal "assertion failed: WARNED_SET insert returned false",
          warnedSet, ctx1, [])
      else
        let warned' := if hasAlreadyWarned then warnedSet else warnedInsert warnedSet num
        let level := if hasAlreadyWarned then LogLevel.debug else LogLevel.warn
        let rv : SyscallResult := Except.error (errnoIntoError ENOSYS)
        let straceName := if (syscallNameOf num).isSome then syscallName else "syscall"
        let logs :=
          [LogEvent.unsupportedLog level syscallName num]
            ++ (if cfg.straceEnabled then [LogEvent.straceLog straceName rv] else [])
        (DispatchOutcome.ret rv, warned', ctx1, logs)
  let postLog :=
    match arm.1 with
    | DispatchOutcome.ret rv =>
        if cfg.traceEnabled
        then [LogEvent.postTrace syscallName num wasBlocked (formatResult rv)]
        else []
    | DispatchOutcome.fatal _ => []
  { outcome := arm.1
    warnedSet := arm.2.1
    ctx := arm.2.2.1
    log := preLog ++ arm.2.2.2 ++ postLog }

/-!
Descriptor lookup helpers (`SyscallHandler::get_descriptor` and
`SyscallHandler::get_descriptor_mut`).
-/

/-- Modelled from the spec: a descriptor owns per-descriptor flags and a shared
file-object reference; both are abstracted to a token here, since only identity
matters to the lookup helpers. -/
structure Descriptor where
  token : Nat
deriving DecidableEq

/-- Modelled from the spec: the per-process descriptor table, a mapping from
small non-negative integer handles to descriptors. -/
structure DescriptorTable where
  entries : List (Nat × Descriptor)

/-- `DescriptorTable::get(h)`: the descriptor at a handle, when allocated. -/
def DescriptorTable.get (t : DescriptorTable) (h : Nat) : Option Descriptor :=
  t.entries.lookup h

/-- `DescriptorTable::get_mut(h)`: mutable access; in this pure model it selects
the same entry as `get`. -/
def DescriptorTable.get_mut (t : DescriptorTable) (h : Nat) : Option Descriptor :=
  t.entries.lookup h

/-- Modelled from the spec: `fd.try_into::<DescriptorHandle>()`.  Handles are
small non-negative integers and anything outside the signed-int range fails the
conversion, so it succeeds exactly on `0 ≤ fd < 2^31`. -/
def descriptorHandleTryFrom (fd : Int) : Option Nat :=
  if 0 ≤ fd ∧ fd < 2 ^ 31 then some fd.toNat else none

/-- `SyscallHandler::get_descriptor`: bounds-check the fd, then look it up,
returning EBADF on either failure. -/
def SyscallHandler.get_descriptor (t : DescriptorTable) (fd : Int) :
    Except Nat Descriptor :=
  match descriptorHandleTryFrom fd with
  | none => Except.error EBADF
  | some h =>
    match t.get h with
    | some d => Except.ok d
    | none => Except.error EBADF

/-- `SyscallHandler::get_descriptor_mut`: same as `get_descriptor` but through
`DescriptorTable::get_mut`. -/
def SyscallHandler.get_descriptor_mut (t : DescriptorTable) (fd : Int) :
    Except Nat Descriptor :=
  match descriptorHandleTryFrom fd with
  | none => Except.error EBADF
  | some h =>
    match t.get_mut h with
    | some d => Except.ok d
    | none => Except.error EBADF

/-!
The calling-convention adapters (`SyscallHandlerFn` impls for 0 through 6
parameters).  A handler receives the `SyscallContext` plus its declared typed
parameters; the adapter converts the first N machine-word arguments by the
declared total conversions (`T: From<SysCallReg>`) and converts the success
value back into a machine word (`T0: Into<SysCallReg>`).
-/

/-- `SyscallContext`: the thread-context objects together with the arguments. -/
structure SyscallContext (α : Type) where
  objs : α
  args : SysCallArgs

/-- Adapter for 0-parameter handlers. -/
def SyscallHandlerFn.call0 {α T0 : Type} (toReg : T0 → SysCallReg)
    (f : SyscallContext α → Except SyscallError T0) (ctx : SyscallContext α) :
    SyscallResult :=
  (f ctx).map toReg

/-- Adapter for 1-parameter handlers. -/
def SyscallHandlerFn.call1 {α T0 T1 : Type} (toReg : T0 → SysCallReg)
    (c1 : SysCallReg → T1)
    (f : SyscallContext α → T1 → Except SyscallError T0) (ctx : SyscallContext α) :
    SyscallResult :=
  (f ctx (c1 (ctx.args.get 0))).map toReg

/-- Adapter for 2-parameter handlers. -/
def SyscallHandlerFn.call2 {α T0 T1 T2 : Type} (toReg : T0 → SysCallReg)
    (c1 : SysCallReg → T1) (c2 : SysCallReg → T2)
    (f : SyscallContext α → T1 → T2 → Except SyscallError T0)
    (ctx : SyscallContext α) : SyscallResult :=
  (f ctx (c1 (ctx.args.get 0)) (c2 (ctx.args.get 1))).map toReg

/-- Adapter for 3-parameter handlers. -/
def SyscallHandlerFn.call3 {α T0 T1 T2 T3 : Type} (toReg : T0 → SysCallReg)
    (c1 : SysCallReg → T1) (c2 : SysCallReg → T2) (c3 : SysCallReg → T3)
    (f : SyscallContext α → T1 → T2 → T3 → Except SyscallError T0)
    (ctx : SyscallContext α) : SyscallResult :=
  (f ctx (c1 (ctx.args.get 0)) (c2 (ctx.args.get 1)) (c3 (ctx.args.get 2))).map toReg

/-- Adapter for 4-parameter handlers. -/
def SyscallHandlerFn.call4 {α T0 T1 T2 T3 T4 : Type} (toReg : T0 → SysCallReg)
    (c1 : SysCallReg → T1) (c2 : SysCallReg → T2) (c3 : SysCallReg → T3)
    (c4 : SysCallReg → T4)
    (f : SyscallContext α → T1 → T2 → T3 → T4 → Except SyscallError T0)
    (ctx : SyscallContext α) : SyscallResult :=
  (f ctx (c1 (ctx.args.get 0)) (c2 (ctx.args.get 1)) (c3 (ctx.args.get 2))
      (c4 (ctx.args.get 3))).map toReg

/-- Adapter for 5-parameter handlers. -/
def SyscallHandlerFn.call5 {α T0 T1 T2 T3 T4 T5 : Type} (toReg : T0 → SysCallReg)
    (c1 : SysCallReg → T1) (c2 : SysCallReg → T2) (c3 : SysCallReg → T3)
    (c4 : SysCallReg → T4) (c5 : SysCallReg → T5)
    (f : SyscallContext α → T1 → T2 → T3 → T4 → T5 → Except SyscallError T0)
    (ctx : SyscallContext α) : SyscallResult :=
  (f ctx (c1 (ctx.args.get 0)) (c2 (ctx.args.get 1)) (c3 (ctx.args.get 2))
      (c4 (ctx.args.get 3)) (c5 (ctx.args.get 4))).map toReg

/-- Adapter for 6-parameter handlers. -/
def SyscallHandlerFn.call6 {α T0 T1 T2 T3 T4 T5 T6 : Type} (toReg : T0 → SysCallReg)
    (c1 : SysCallReg → T1) (c2 : SysCallReg → T2) (c3 : SysCallReg → T3)
    (c4 : SysCallReg → T4) (c5 : SysCallReg → T5) (c6 : SysCallReg → T6)
    (f : SyscallContext α → T1 → T2 → T3 → T4 → T5 → T6 → Except SyscallError T0)
    (ctx : SyscallContext α) : SyscallResult :=
  (f ctx (c1 (ctx.args.get 0)) (c2 (ctx.args.get 1)) (c3 (ctx.args.get 2))
      (c4 (ctx.args.get 3)) (c5 (ctx.args.get 4)) (c6 (ctx.args.get 5))).map toReg

/-!
The exported C entry point `rustsyscallhandler_free`.  A heap of live boxed
`SyscallHandler` allocations is modelled as a list of box addresses (with
multiplicity, so "dropped exactly once" is observable as a count).
-/

/-- `rustsyscallhandler_free(ptr)`: a null pointer returns immediately; a
non-null pointer has its box dropped (deallocated from the heap) once. -/
def rustsyscallhandler_free (handlerPtr : Option Nat) (heap : List Nat) : List Nat :=
  match handlerPtr with
  | none => heap
  | some p => heap.erase p

/-!
Interleaved model of the unsupported-arm warned-set update, for analysing
concurrent first encounters of the same unsupported syscall number.  The
`RwLock` makes the read section (`has_already_warned := contains`) and the write
section (`assert!(insert)`) each atomic, but nothing makes the pair atomic, so
two threads may interleave between them.  pc 0 = before the read section,
pc 1 = before the write section, pc 2 = before logging, pc 3 = done.
-/

/-- A thread's position in the unsupported arm plus its local
`has_already_warned` flag. -/
structure WarnRaceThread where
  pc : Nat
  hasWarned : Bool
deriving DecidableEq

/-- Global state of a two-thread run of the unsupported arm: the shared warned
set, the two threads, whether an assertion has failed (process panic), and the
log events emitted so far (thread id paired with the level used). -/
structure WarnRaceState where
  warnedSet : Option (List Nat)
  th0 : WarnRaceThread
  th1 : WarnRaceThread
  panicked : Bool
  warnLog : List (Bool × LogLevel)
deriving DecidableEq

/-- Both threads at the start, warned set not yet created, no log. -/
def warnRaceInit : WarnRaceState :=
  { warnedSet := none
    th0 := { pc := 0, hasWarned := false }
    th1 := { pc := 0, hasWarned := false }
    panicked := false
    warnLog := [] }

/-- Execute one atomic section of thread `t` (`false` = thread 0) on the
unsupported arm for syscall number `num`: the read-lock section, then the
write-lock section whose failed `assert!(insert(…))` panics, then the
`log::log!(level, …)` call. -/
def warnRaceStep (num : Nat) (s : WarnRaceState) (t : Bool) : WarnRaceState :=
  if s.panicked then s
  else
    let th := if t then s.th1 else s.th0
    let upd := fun (s' : WarnRaceState) (th' : WarnRaceThread) =>
      if t then { s' with th1 := th' } else { s' with th0 := th' }
    match th.pc with
    | 0 => upd s { pc := 1, hasWarned := warnedContains s.warnedSet num }
    | 1 =>
      if th.hasWarned then upd s { th with pc := 2 }
      else if warnedContains s.warnedSet num then
        { upd s { th with pc := 2 } with panicked := true }
      else
        { upd s { th with pc := 2 } with warnedSet := warnedInsert s.warnedSet num }
    | 2 =>
      { upd s { th with pc := 3 } with
          warnLog := s.warnLog
            ++ [(t, if th.hasWarned then LogLevel.debug else LogLevel.warn)] }
    | _ => s

/-- Run the two threads under an explicit schedule. -/
def warnRaceRun (num : Nat) (sched : List Bool) : WarnRaceState :=
  sched.foldl (warnRaceStep num) warnRaceInit

/-!
Concrete sample objects used by witnesses.
-/

/-- A handler environment whose handlers all answer `Native`. -/
def trivialHandlers : HandlerEnv Unit := fun _ o _ => (Except.error SyscallError.native, o)

/-- A logging configuration with all logging disabled. -/
def quietLog : LogConfig := { traceEnabled := false, straceEnabled := false }

/-- A sample first-entry thread context over trivial simulation state. -/
def sampleCtx : ThreadContext Unit :=
  { objs := (), wasBlocked := false, counter := none,
    processName := "proc", pluginName := "proc", hostName := "host", tid := 1 }

/-- A sample resumed-after-block thread context carrying a live counter. -/
def blockedCtx : ThreadContext Unit :=
  { objs := (), wasBlocked := true, counter := some (fun _ => 0),
    processName := "proc", pluginName := "proc", hostName := "host", tid := 1 }

/-- Arguments with a given number and all six machine words zero. -/
def zeroArgs (n : Nat) : SysCallArgs := { number := n, args := fun _ => ⟨0⟩ }

/-!
Theorems.
-/

/-- The shim-only numbers appear in no `handle!` arm. -/
theorem shimOnly_not_emulated : ∀ n ∈ shimOnlyNums, n ∉ emulatedNums := by decide

/-- The shim-only numbers are not simulator-private numbers. -/
theorem shimOnly_not_custom : ∀ n ∈ shimOnlyNums, n ∉ shadowCustomNums := by decide

/-- The native allow-list numbers appear in no `handle!` arm. -/
theorem native_not_emulated : ∀ n ∈ nativeNums, n ∉ emulatedNums := by decide

/-- The native allow-list numbers are not simulator-private numbers. -/
theorem native_not_custom : ∀ n ∈ nativeNums, n ∉ shadowCustomNums := by decide

/-- The native allow-list numbers are not shim-only numbers. -/
theorem native_not_shimOnly : ∀ n ∈ nativeNums, n ∉ shimOnlyNums := by decide

/-- C1: for every syscall number that is in none of the emulated, custom, native
and shim-only sets, the dispatcher returns `Failed(ENOSYS)` (non-restartable) to
the guest. -/
theorem unsupported_syscall_returns_enosys {α : Type} (handlers : HandlerEnv α)
    (cfg : LogConfig) (w : Option (List Nat)) (ctx : ThreadContext α)
    (args : SysCallArgs)
    (h1 : args.number ∉ emulatedNums) (h2 : args.number ∉ shadowCustomNums)
    (h3 : args.number ∉ nativeNums) (h4 : args.number ∉ shimOnlyNums) :
    (SyscallHandler.syscall handlers cfg w ctx args).outcome
      = DispatchOutcome.ret (Except.error (SyscallError.failed ENOSYS false)) := by
  cases hw : warnedContains w args.number <;>
    simp [SyscallHandler.syscall, h1, h2, h3, h4, hw, errnoIntoError]

/-- Witness for C1 at the unknown number 5000. -/
theorem unsupported_syscall_returns_enosys_witness :
    5000 ∉ emulatedNums ∧ 5000 ∉ shadowCustomNums ∧ 5000 ∉ nativeNums
    ∧ 5000 ∉ shimOnlyNums
    ∧ (SyscallHandler.syscall trivialHandlers quietLog none sampleCtx
        (zeroArgs 5000)).outcome
      = DispatchOutcome.ret (Except.error (SyscallError.failed ENOSYS false)) :=
  ⟨by decide, by decide, by decide, by decide,
    unsupported_syscall_returns_enosys trivialHandlers quietLog none sampleCtx
      (zeroArgs 5000) (by decide) (by decide) (by decide) (by decide)⟩

/-- C2: a shim-only syscall arriving at the dispatcher terminates the simulation
with an invariant-violation diagnostic; it never produces a returned result. -/
theorem shim_only_syscall_is_fatal {α : Type} (handlers : HandlerEnv α)
    (cfg : LogConfig) (w : Option (List Nat)) (ctx : ThreadContext α)
    (args : SysCallArgs) (h : args.number ∈ shimOnlyNums) :
    (∃ msg, (SyscallHandler.syscall handlers cfg w ctx args).outcome
        = DispatchOutcome.fatal msg)
    ∧ ∀ rv, (SyscallHandler.syscall handlers cfg w ctx args).outcome
        ≠ DispatchOutcome.ret rv := by
  have he := shimOnly_not_emulated _ h
  have hc := shimOnly_not_custom _ h
  constructor
  · refine ⟨"Syscall " ++ (syscallNameOf args.number).getD "unknown-syscall" ++ " ("
      ++ toString args.number ++ ") should have been handled in the shim", ?_⟩
    simp [SyscallHandler.syscall, he, hc, h]
  · intro rv
    simp [SyscallHandler.syscall, he, hc, h]

/-- Witness for C2 at `clock_gettime` (228). -/
theorem shim_only_syscall_is_fatal_witness :
    228 ∈ shimOnlyNums
    ∧ (∃ msg, (SyscallHandler.syscall trivialHandlers quietLog none sampleCtx
        (zeroArgs 228)).outcome = DispatchOutcome.fatal msg) :=
  ⟨by decide,
    (shim_only_syscall_is_fatal trivialHandlers quietLog none sampleCtx
      (zeroArgs 228) (by decide)).1⟩

/-- C7: every number of the native allow-list gets the `Native` disposition,
directing the caller to run the call on the host kernel. -/
theorem native_allowlist_returns_native {α : Type} (handlers : HandlerEnv α)
    (cfg : LogConfig) (w : Option (List Nat)) (ctx : ThreadContext α)
    (args : SysCallArgs) (h : args.number ∈ nativeNums) :
    (SyscallHandler.syscall handlers cfg w ctx args).outcome
      = DispatchOutcome.ret (Except.error SyscallError.native) := by
  have he := native_not_emulated _ h
  have hc := native_not_custom _ h
  have hs := native_not_shimOnly _ h
  simp [SyscallHandler.syscall, he, hc, hs, h]

/-- Witness for C7 at `access` (21). -/
theorem native_allowlist_returns_native_witness :
    21 ∈ nativeNums
    ∧ (SyscallHandler.syscall trivialHandlers quietLog none sampleCtx
        (zeroArgs 21)).outcome
      = DispatchOutcome.ret (Except.error SyscallError.native) :=
  ⟨by decide,
    native_allowlist_returns_native trivialHandlers quietLog none sampleCtx
      (zeroArgs 21) (by decide)⟩

/-- C3 (amended): for every thread context and every `SysCallArgs` whose number
is not in the shim-only set, the dispatcher terminates and returns exactly one
of the four outcomes Ok, Failed, Native, or Blocked; in particular unknown
numbers reach the unsupported arm rather than aborting.  (Shim-only numbers
instead abort with a fatal diagnostic, see C2.) -/
theorem dispatcher_returns_one_of_four_outcomes {α : Type} (handlers : HandlerEnv α)
    (cfg : LogConfig) (w : Option (List Nat)) (ctx : ThreadContext α)
    (args : SysCallArgs) (h : args.number ∉ shimOnlyNums) :
    (∃ v, (SyscallHandler.syscall handlers cfg w ctx args).outcome
        = DispatchOutcome.ret (Except.ok v))
    ∨ (∃ e r, (SyscallHandler.syscall handlers cfg w ctx args).outcome
        = DispatchOutcome.ret (Except.error (SyscallError.failed e r)))
    ∨ ((SyscallHandler.syscall handlers cfg w ctx args).outcome
        = DispatchOutcome.ret (Except.error SyscallError.native))
    ∨ (∃ c, (SyscallHandler.syscall handlers cfg w ctx args).outcome
        = DispatchOutcome.ret (Except.error (SyscallError.blocked c))) := by
  have key : ∃ rv, (SyscallHandler.syscall handlers cfg w ctx args).outcome
      = DispatchOutcome.ret rv := by
    by_cases hEm : args.number ∈ emulatedNums ∨ args.number ∈ shadowCustomNums
    · refine ⟨(handlers args.number
        (if ctx.wasBlocked then ctx
          else { ctx with counter := ctx.counter.map (fun c =>
            counterAddOne c ((syscallNameOf args.number).getD "unknown-syscall")) }).objs
        args).1, ?_⟩
      simp [SyscallHandler.syscall, hEm]
    · by_cases hNat : args.number ∈ nativeNums
      · exact ⟨Except.error SyscallError.native,
          by simp [SyscallHandler.syscall, hEm, h, hNat]⟩
      · refine ⟨Except.error (SyscallError.failed ENOSYS false), ?_⟩
        cases hw : warnedContains w args.number <;>
          simp [SyscallHandler.syscall, hEm, h, hNat, hw, errnoIntoError]
  rcases key with ⟨rv, hrv⟩
  rcases rv with e | v
  · rcases e with ⟨en, r⟩ | _ | c
    · exact Or.inr (Or.inl ⟨en, r, hrv⟩)
    · exact Or.inr (Or.inr (Or.inl hrv))
    · exact Or.inr (Or.inr (Or.inr ⟨c, hrv⟩))
  · exact Or.inl ⟨v, hrv⟩

/-- Counterexample for C3 as stated: at the input with syscall number 228
(`clock_gettime`), the dispatcher's outcome is the fatal shim invariant
violation, not one of the four returned outcomes. -/
theorem dispatcher_aborts_on_clock_gettime :
    (SyscallHandler.syscall trivialHandlers quietLog none sampleCtx
        (zeroArgs 228)).outcome
      = DispatchOutcome.fatal
          "Syscall clock_gettime (228) should have been handled in the shim" := by
  decide

/-- Witness for the amended C3 at the emulated number 0 (`read`). -/
theorem dispatcher_returns_one_of_four_outcomes_witness :
    0 ∉ shimOnlyNums
    ∧ ((∃ v, (SyscallHandler.syscall trivialHandlers quietLog none sampleCtx
          (zeroArgs 0)).outcome = DispatchOutcome.ret (Except.ok v))
      ∨ (∃ e r, (SyscallHandler.syscall trivialHandlers quietLog none sampleCtx
          (zeroArgs 0)).outcome
            = DispatchOutcome.ret (Except.error (SyscallError.failed e r)))
      ∨ ((SyscallHandler.syscall trivialHandlers quietLog none sampleCtx
          (zeroArgs 0)).outcome
            = DispatchOutcome.ret (Except.error SyscallError.native))
      ∨ (∃ c, (SyscallHandler.syscall trivialHandlers quietLog none sampleCtx
          (zeroArgs 0)).outcome
            = DispatchOutcome.ret (Except.error (SyscallError.blocked c)))) :=
  ⟨by decide,
    dispatcher_returns_one_of_four_outcomes trivialHandlers quietLog none sampleCtx
      (zeroArgs 0) (by decide)⟩

/-- C5: the per-name syscall counter is bumped only on the first entry of an
invocation: a resumption after a block (`was_blocked = true`) leaves the counter
untouched, while a first entry bumps exactly the dispatched syscall's name. -/
theorem blocked_resumption_skips_counter {α : Type} (handlers : HandlerEnv α)
    (cfg : LogConfig) (w : Option (List Nat)) (ctx : ThreadContext α)
    (args : SysCallArgs) :
    (ctx.wasBlocked = true →
      (SyscallHandler.syscall handlers cfg w ctx args).ctx.counter = ctx.counter)
    ∧ (ctx.wasBlocked = false →
      (SyscallHandler.syscall handlers cfg w ctx args).ctx.counter
        = ctx.counter.map (fun c =>
            counterAddOne c ((syscallNameOf args.number).getD "unknown-syscall"))) := by
  constructor <;> intro hb <;>
    · unfold SyscallHandler.syscall
      dsimp only
      rw [hb]
      split_ifs <;> first | rfl | simp_all

/-- Witness for C5: a resumed `read` leaves the counter exactly as it was. -/
theorem blocked_resumption_skips_counter_witness :
    (SyscallHandler.syscall trivialHandlers quietLog none blockedCtx
        (zeroArgs 0)).ctx.counter = blockedCtx.counter :=
  (blocked_resumption_skips_counter trivialHandlers quietLog none blockedCtx
      (zeroArgs 0)).1 rfl

/-- C9: the returned result (and all non-logging state: the warned set and the
thread context) is identical between two runs that differ only in the logging
configuration; logging is a side effect that never alters the returned result. -/
theorem logging_config_does_not_change_result {α : Type} (handlers : HandlerEnv α)
    (cfg cfg' : LogConfig) (w : Option (List Nat)) (ctx : ThreadContext α)
    (args : SysCallArgs) :
    ((SyscallHandler.syscall handlers cfg w ctx args).outcome
        = (SyscallHandler.syscall handlers cfg' w ctx args).outcome)
    ∧ ((SyscallHandler.syscall handlers cfg w ctx args).warnedSet
        = (SyscallHandler.syscall handlers cfg' w ctx args).warnedSet)
    ∧ ((SyscallHandler.syscall handlers cfg w ctx args).ctx
        = (SyscallHandler.syscall handlers cfg' w ctx args).ctx) := by
  unfold SyscallHandler.syscall
  dsimp only
  refine ⟨?_, ?_, ?_⟩ <;> (split_ifs <;> rfl)

/-- Sequentially, the warned set does implement first-warn-then-demote: an
unsupported number not yet in the warned set is logged at Warn and added to the
set, and an already-warned number is logged at Debug and the set is unchanged. -/
theorem warned_set_sequential_policy {α : Type} (handlers : HandlerEnv α)
    (cfg : LogConfig) (w : Option (List Nat)) (ctx : ThreadContext α)
    (args : SysCallArgs)
    (h1 : args.number ∉ emulatedNums) (h2 : args.number ∉ shadowCustomNums)
    (h3 : args.number ∉ nativeNums) (h4 : args.number ∉ shimOnlyNums) :
    (warnedContains w args.number = false →
      LogEvent.unsupportedLog LogLevel.warn
          ((syscallNameOf args.number).getD "unknown-syscall") args.number
        ∈ (SyscallHandler.syscall handlers cfg w ctx args).log
      ∧ (SyscallHandler.syscall handlers cfg w ctx args).warnedSet
        = warnedInsert w args.number)
    ∧ (warnedContains w args.number = true →
      LogEvent.unsupportedLog LogLevel.debug
          ((syscallNameOf args.number).getD "unknown-syscall") args.number
        ∈ (SyscallHandler.syscall handlers cfg w ctx args).log
      ∧ (SyscallHandler.syscall handlers cfg w ctx args).warnedSet = w) := by
  constructor <;> intro hw <;>
    constructor <;> simp [SyscallHandler.syscall, h1, h2, h3, h4, hw]

/-- C4 (failing concurrent schedule): when two threads first-encounter the same
unsupported number and both pass the read-phase membership check before either
inserts, the loser's `assert!(…insert(…))` fails and the process panics, instead
of one winner logging Warn and the other Debug. -/
theorem warned_set_concurrent_insert_asserts :
    (warnRaceRun 1337 [false, true, false, true]).panicked = true
    ∧ (warnRaceRun 1337 [false, true, false, true]).warnLog = [] := by decide

/-- C6: descriptor lookup yields EBADF for every fd that is outside the
signed-int handle range or whose handle is not currently allocated in the
table, through both `get_descriptor` and `get_descriptor_mut`. -/
theorem bad_fd_yields_ebadf (t : DescriptorTable) (fd : Int)
    (h : (fd < 0 ∨ (2 : Int) ^ 31 ≤ fd)
      ∨ ∀ hdl, descriptorHandleTryFrom fd = some hdl → t.get hdl = none) :
    SyscallHandler.get_descriptor t fd = Except.error EBADF
    ∧ SyscallHandler.get_descriptor_mut t fd = Except.error EBADF := by
  rcases h with hrange | halloc
  · have hnone : descriptorHandleTryFrom fd = none := by
      unfold descriptorHandleTryFrom
      rw [if_neg]
      rintro ⟨hlo, hhi⟩
      rcases hrange with h3 | h3 <;> omega
    constructor
    · simp [SyscallHandler.get_descriptor, hnone]
    · simp [SyscallHandler.get_descriptor_mut, hnone]
  · by_cases hin : 0 ≤ fd ∧ fd < 2 ^ 31
    · have ht : descriptorHandleTryFrom fd = some fd.toNat := by
        unfold descriptorHandleTryFrom
        rw [if_pos hin]
      have hn := halloc fd.toNat ht
      have hn' : t.get_mut fd.toNat = none := hn
      constructor
      · simp [SyscallHandler.get_descriptor, ht, hn]
      · simp [SyscallHandler.get_descriptor_mut, ht, hn']
    · have hnone : descriptorHandleTryFrom fd = none := by
        unfold descriptorHandleTryFrom
        rw [if_neg hin]
      constructor
      · simp [SyscallHandler.get_descriptor, hnone]
      · simp [SyscallHandler.get_descriptor_mut, hnone]

/-- Witness for C6: a negative fd and an unallocated fd both yield EBADF, in an
empty descriptor table. -/
theorem bad_fd_yields_ebadf_witness :
    SyscallHandler.get_descriptor ⟨[]⟩ (-1) = Except.error EBADF
    ∧ SyscallHandler.get_descriptor_mut ⟨[]⟩ 3 = Except.error EBADF :=
  ⟨(bad_fd_yields_ebadf ⟨[]⟩ (-1) (Or.inl (Or.inl (by decide)))).1,
    (bad_fd_yields_ebadf ⟨[]⟩ 3 (Or.inr (by
      intro hdl h
      simp [descriptorHandleTryFrom] at h
      subst h
      rfl))).2⟩

/-- C8: for every arity from 0 through 6, the adapter invokes the handler with
exactly the first N of the six machine-word arguments, each converted by its
declared total conversion, and maps the handler's success value back into a
machine word: the adapted call equals the handler applied to the converted
first N arguments, and (for a handler that uses only its declared parameters)
the result is unchanged by any modification of the arguments beyond the first N. -/
theorem handler_adapters_use_first_n_args :
    (∀ (α T0 : Type) (toReg : T0 → SysCallReg) (e : Except SyscallError T0)
        (objs : α) (a a' : SysCallArgs),
      SyscallHandlerFn.call0 toReg (fun _ => e) ⟨objs, a⟩ = e.map toReg
      ∧ SyscallHandlerFn.call0 toReg (fun _ => e) ⟨objs, a⟩
        = SyscallHandlerFn.call0 toReg (fun _ => e) ⟨objs, a'⟩)
    ∧ (∀ (α T0 T1 : Type) (toReg : T0 → SysCallReg) (c1 : SysCallReg → T1)
        (g : T1 → Except SyscallError T0) (objs : α) (a a' : SysCallArgs),
      (∀ i : Fin 6, (i : Nat) < 1 → a.get i = a'.get i) →
      SyscallHandlerFn.call1 toReg c1 (fun _ x1 => g x1) ⟨objs, a⟩
          = (g (c1 (a.get 0))).map toReg
      ∧ SyscallHandlerFn.call1 toReg c1 (fun _ x1 => g x1) ⟨objs, a⟩
          = SyscallHandlerFn.call1 toReg c1 (fun _ x1 => g x1) ⟨objs, a'⟩)
    ∧ (∀ (α T0 T1 T2 : Type) (toReg : T0 → SysCallReg)
        (c1 : SysCallReg → T1) (c2 : SysCallReg → T2)
        (g : T1 → T2 → Except SyscallError T0) (objs : α) (a a' : SysCallArgs),
      (∀ i : Fin 6, (i : Nat) < 2 → a.get i = a'.get i) →
      SyscallHandlerFn.call2 toReg c1 c2 (fun _ x1 x2 => g x1 x2) ⟨objs, a⟩
          = (g (c1 (a.get 0)) (c2 (a.get 1))).map toReg
      ∧ SyscallHandlerFn.call2 toReg c1 c2 (fun _ x1 x2 => g x1 x2) ⟨objs, a⟩
          = SyscallHandlerFn.call2 toReg c1 c2 (fun _ x1 x2 => g x1 x2) ⟨objs, a'⟩)
    ∧ (∀ (α T0 T1 T2 T3 : Type) (toReg : T0 → SysCallReg)
        (c1 : SysCallReg → T1) (c2 : SysCallReg → T2) (c3 : SysCallReg → T3)
        (g : T1 → T2 → T3 → Except SyscallError T0) (objs : α) (a a' : SysCallArgs),
      (∀ i : Fin 6, (i : Nat) < 3 → a.get i = a'.get i) →
      SyscallHandlerFn.call3 toReg c1 c2 c3 (fun _ x1 x2 x3 => g x1 x2 x3) ⟨objs, a⟩
          = (g (c1 (a.get 0)) (c2 (a.get 1)) (c3 (a.get 2))).map toReg
      ∧ SyscallHandlerFn.call3 toReg c1 c2 c3 (fun _ x1 x2 x3 => g x1 x2 x3) ⟨objs, a⟩
          = SyscallHandlerFn.call3 toReg c1 c2 c3 (fun _ x1 x2 x3 => g x1 x2 x3) ⟨objs, a'⟩)
    ∧ (∀ (α T0 T1 T2 T3 T4 : Type) (toReg : T0 → SysCallReg)
        (c1 : SysCallReg → T1) (c2 : SysCallReg → T2) (c3 : SysCallReg → T3)
        (c4 : SysCallReg → T4)
        (g : T1 → T2 → T3 → T4 → Except SyscallError T0) (objs : α) (a a' : SysCallArgs),
      (∀ i : Fin 6, (i : Nat) < 4 → a.get i = a'.get i) →
      SyscallHandlerFn.call4 toReg c1 c2 c3 c4
          (fun _ x1 x2 x3 x4 => g x1 x2 x3 x4) ⟨objs, a⟩
          = (g (c1 (a.get 0)) (c2 (a.get 1)) (c3 (a.get 2)) (c4 (a.get 3))).map toReg
      ∧ SyscallHandlerFn.call4 toReg c1 c2 c3 c4
          (fun _ x1 x2 x3 x4 => g x1 x2 x3 x4) ⟨objs, a⟩
          = SyscallHandlerFn.call4 toReg c1 c2 c3 c4
              (fun _ x1 x2 x3 x4 => g x1 x2 x3 x4) ⟨objs, a'⟩)
    ∧ (∀ (α T0 T1 T2 T3 T4 T5 : Type) (toReg : T0 → SysCallReg)
        (c1 : SysCallReg → T1) (c2 : SysCallReg → T2) (c3 : SysCallReg → T3)
        (c4 : SysCallReg → T4) (c5 : SysCallReg → T5)
        (g : T1 → T2 → T3 → T4 → T5 → Except SyscallError T0) (objs : α)
        (a a' : SysCallArgs),
      (∀ i : Fin 6, (i : Nat) < 5 → a.get i = a'.get i) →
      SyscallHandlerFn.call5 toReg c1 c2 c3 c4 c5
          (fun _ x1 x2 x3 x4 x5 => g x1 x2 x3 x4 x5) ⟨objs, a⟩
          = (g (c1 (a.get 0)) (c2 (a.get 1)) (c3 (a.get 2)) (c4 (a.get 3))
              (c5 (a.get 4))).map toReg
      ∧ SyscallHandlerFn.call5 toReg c1 c2 c3 c4 c5
          (fun _ x1 x2 x3 x4 x5 => g x1 x2 x3 x4 x5) ⟨objs, a⟩
          = SyscallHandlerFn.call5 toReg c1 c2 c3 c4 c5
              (fun _ x1 x2 x3 x4 x5 => g x1 x2 x3 x4 x5) ⟨objs, a'⟩)
    ∧ (∀ (α T0 T1 T2 T3 T4 T5 T6 : Type) (toReg : T0 → SysCallReg)
        (c1 : SysCallReg → T1) (c2 : SysCallReg → T2) (c3 : SysCallReg → T3)
        (c4 : SysCallReg → T4) (c5 : SysCallReg → T5) (c6 : SysCallReg → T6)
        (g : T1 → T2 → T3 → T4 → T5 → T6 → Except SyscallError T0) (objs : α)
        (a a' : SysCallArgs),
      (∀ i : Fin 6, (i : Nat) < 6 → a.get i = a'.get i) →
      SyscallHandlerFn.call6 toReg c1 c2 c3 c4 c5 c6
          (fun _ x1 x2 x3 x4 x5 x6 => g x1 x2 x3 x4 x5 x6) ⟨objs, a⟩
          = (g (c1 (a.get 0)) (c2 (a.get 1)) (c3 (a.get 2)) (c4 (a.get 3))
              (c5 (a.get 4)) (c6 (a.get 5))).map toReg
      ∧ SyscallHandlerFn.call6 toReg c1 c2 c3 c4 c5 c6
          (fun _ x1 x2 x3 x4 x5 x6 => g x1 x2 x3 x4 x5 x6) ⟨objs, a⟩
          = SyscallHandlerFn.call6 toReg c1 c2 c3 c4 c5 c6
              (fun _ x1 x2 x3 x4 x5 x6 => g x1 x2 x3 x4 x5 x6) ⟨objs, a'⟩) := by
  refine ⟨?_, ?_, ?_, ?_, ?_, ?_, ?_⟩
  · intro α T0 toReg e objs a a'
    exact ⟨rfl, rfl⟩
  · intro α T0 T1 toReg c1 g objs a a' h
    refine ⟨rfl, ?_⟩
    have e0 := h 0 (by decide)
    simp only [SyscallHandlerFn.call1]
    rw [show SysCallArgs.get (SyscallContext.mk objs a).args 0 = a.get 0 from rfl, e0]
  · intro α T0 T1 T2 toReg c1 c2 g objs a a' h
    refine ⟨rfl, ?_⟩
    have e0 := h 0 (by decide)
    have e1 := h 1 (by decide)
    simp only [SyscallHandlerFn.call2]
    rw [show SysCallArgs.get (SyscallContext.mk objs a).args 0 = a.get 0 from rfl,
      show SysCallArgs.get (SyscallContext.mk objs a).args 1 = a.get 1 from rfl, e0, e1]
  · intro α T0 T1 T2 T3 toReg c1 c2 c3 g objs a a' h
    refine ⟨rfl, ?_⟩
    have e0 := h 0 (by decide)
    have e1 := h 1 (by decide)
    have e2 := h 2 (by decide)
    simp only [SyscallHandlerFn.call3]
    rw [show SysCallArgs.get (SyscallContext.mk objs a).args 0 = a.get 0 from rfl,
      show SysCallArgs.get (SyscallContext.mk objs a).args 1 = a.get 1 from rfl,
      show SysCallArgs.get (SyscallContext.mk objs a).args 2 = a.get 2 from rfl,
      e0, e1, e2]
  · intro α T0 T1 T2 T3 T4 toReg c1 c2 c3 c4 g objs a a' h
    refine ⟨rfl, ?_⟩
    have e0 := h 0 (by decide)
    have e1 := h 1 (by decide)
    have e2 := h 2 (by decide)
    have e3 := h 3 (by decide)
    simp only [SyscallHandlerFn.call4]
    rw [show SysCallArgs.get (SyscallContext.mk objs a).args 0 = a.get 0 from rfl,
      show SysCallArgs.get (SyscallContext.mk objs a).args 1 = a.get 1 from rfl,
      show SysCallArgs.get (SyscallContext.mk objs a).args 2 = a.get 2 from rfl,
      show SysCallArgs.get (SyscallContext.mk objs a).args 3 = a.get 3 from rfl,
      e0, e1, e2, e3]
  · intro α T0 T1 T2 T3 T4 T5 toReg c1 c2 c3 c4 c5 g objs a a' h
    refine ⟨rfl, ?_⟩
    have e0 := h 0 (by decide)
    have e1 := h 1 (by decide)
    have e2 := h 2 (by decide)
    have e3 := h 3 (by decide)
    have e4 := h 4 (by decide)
    simp only [SyscallHandlerFn.call5]
    rw [show SysCallArgs.get (SyscallContext.mk objs a).args 0 = a.get 0 from rfl,
      show SysCallArgs.get (SyscallContext.mk objs a).args 1 = a.get 1 from rfl,
      show SysCallArgs.get (SyscallContext.mk objs a).args 2 = a.get 2 from rfl,
      show SysCallArgs.get (SyscallContext.mk objs a).args 3 = a.get 3 from rfl,
      show SysCallArgs.get (SyscallContext.mk objs a).args 4 = a.get 4 from rfl,
      e0, e1, e2, e3, e4]
  · intro α T0 T1 T2 T3 T4 T5 T6 toReg c1 c2 c3 c4 c5 c6 g objs a a' h
    refine ⟨rfl, ?_⟩
    have e0 := h 0 (by decide)
    have e1 := h 1 (by decide)
    have e2 := h 2 (by decide)
    have e3 := h 3 (by decide)
    have e4 := h 4 (by decide)
    have e5 := h 5 (by decide)
    simp only [SyscallHandlerFn.call6]
    rw [show SysCallArgs.get (SyscallContext.mk objs a).args 0 = a.get 0 from rfl,
      show SysCallArgs.get (SyscallContext.mk objs a).args 1 = a.get 1 from rfl,
      show SysCallArgs.get (SyscallContext.mk objs a).args 2 = a.get 2 from rfl,
      show SysCallArgs.get (SyscallContext.mk objs a).args 3 = a.get 3 from rfl,
      show SysCallArgs.get (SyscallContext.mk objs a).args 4 = a.get 4 from rfl,
      show SysCallArgs.get (SyscallContext.mk objs a).args 5 = a.get 5 from rfl,
      e0, e1, e2, e3, e4, e5]

/-- Sample argument tuple: args i = i. -/
def sampleArgsA : SysCallArgs := { number := 2, args := fun i => ⟨(i : Nat)⟩ }

/-- Sample argument tuple agreeing with `sampleArgsA` on the first two words
only. -/
def sampleArgsB : SysCallArgs :=
  { number := 2, args := fun i => ⟨if (i : Nat) < 2 then (i : Nat) else 99⟩ }

/-- Witness for C8 at arity 2: a 2-parameter handler's adapted result is the
mapped handler value on the two converted arguments and is unchanged when
arguments 2..5 change. -/
theorem handler_adapters_use_first_n_args_witness :
    SyscallHandlerFn.call2 (α := Unit) SysCallReg.mk (fun r => r.val) (fun r => r.val)
        (fun _ x1 x2 => Except.ok (x1 + x2)) ⟨(), sampleArgsA⟩
      = (Except.ok ((sampleArgsA.get 0).val + (sampleArgsA.get 1).val)).map SysCallReg.mk
    ∧ SyscallHandlerFn.call2 (α := Unit) SysCallReg.mk (fun r => r.val) (fun r => r.val)
        (fun _ x1 x2 => Except.ok (x1 + x2)) ⟨(), sampleArgsA⟩
      = SyscallHandlerFn.call2 SysCallReg.mk (fun r => r.val) (fun r => r.val)
          (fun _ x1 x2 => Except.ok (x1 + x2)) ⟨(), sampleArgsB⟩ :=
  handler_adapters_use_first_n_args.2.2.1 Unit Nat Nat Nat SysCallReg.mk
    (fun r => r.val) (fun r => r.val) (fun x1 x2 => Except.ok (x1 + x2)) ()
    sampleArgsA sampleArgsB (by decide)

/-- C10: the exported `rustsyscallhandler_free` is a no-op on a null pointer,
and a non-null pointer's box is deallocated exactly once: its multiplicity in
the live heap drops by one and every other box is untouched. -/
theorem free_null_noop_nonnull_drops_once (heap : List Nat) (p : Nat)
    (_hp : p ∈ heap) :
    rustsyscallhandler_free none heap = heap
    ∧ (rustsyscallhandler_free (some p) heap).count p = heap.count p - 1
    ∧ ∀ q, q ≠ p → (rustsyscallhandler_free (some p) heap).count q = heap.count q := by
  refine ⟨rfl, ?_, ?_⟩
  · simp only [rustsyscallhandler_free]
    exact List.count_erase_self p heap
  · intro q hq
    simpa [rustsyscallhandler_free] using List.count_erase_of_ne hq heap

/-- Witness for C10 on the one-box heap `[7]`. -/
theorem free_null_noop_nonnull_drops_once_witness :
    rustsyscallhandler_free none [7] = [7]
    ∧ (rustsyscallhandler_free (some 7) [7]).count 7 = List.count 7 [7] - 1 :=
  ⟨(free_null_noop_nonnull_drops_once [7] 7 (by decide)).1,
    (free_null_noop_nonnull_drops_once [7] 7 (by decide)).2.1⟩

end Shadow
